import Mathlib

/-!
Shallow embedding of the core transformation of the Shopify inventory
converter (src/app.py): the function convert_to_shopify_format together
with the module-level required_cols guard that precedes it.

Tables are modelled as a list of column names plus rows given as
association lists from column name to cell; a cell is a missing value
(NaN), a string, a rational number (a numeric cell such as a parsed CSV
float), or a machine integer (produced by astype int).
-/

/-- A cell of a table: missing (NaN), a string, a numeric value, or an
integer. -/
inductive Cell where
  | null : Cell
  | str : String → Cell
  | num : Rat → Cell
  | int : Int → Cell
deriving DecidableEq, Repr

/-- A row is an association list from column name to cell; a column
absent from the list holds a missing value, as in a ragged CSV row. -/
abbrev Row : Type := List (String × Cell)

/-- A table: column names in order, and rows. -/
structure Table where
  cols : List String
  rows : List Row
deriving DecidableEq

/-- Looking a column up in a row; a column with no entry is missing
(NaN), as in a DataFrame where every row carries every column. -/
def getCell (r : Row) (c : String) : Cell :=
  match List.find? (fun p => p.1 == c) r with
  | some p => p.2
  | none => Cell.null

/-- The eight possible size-label column names, Size 1 .. Size 8. -/
def size_cols : List String :=
  (List.range 8).map (fun i => "Size " ++ toString (i + 1))

/-- The eight possible quantity column names, ots1 .. ots8. -/
def ots_cols : List String :=
  (List.range 8).map (fun i => "ots" ++ toString (i + 1))

/-- String rendering of a numeric cell value (astype str on a number). -/
def ratToStr (q : Rat) : String := toString q

/-- astype str on a single cell: a missing value renders as the string
nan, exactly as pandas renders a float NaN under astype str. -/
def cellAstype : Cell → String
  | Cell.null => "nan"
  | Cell.str s => s
  | Cell.num q => ratToStr q
  | Cell.int n => toString n

/-- fillna with the empty string followed by astype str, applied to the
Color column: a missing color becomes the empty string. -/
def colorNorm : Cell → String
  | Cell.null => ""
  | Cell.str s => s
  | Cell.num q => ratToStr q
  | Cell.int n => toString n

/-- Python str.strip on the character list: drop whitespace at both
ends. -/
def stripChars (l : List Char) : List Char :=
  ((l.dropWhile Char.isWhitespace).reverse.dropWhile Char.isWhitespace).reverse

/-- Python str.strip: trim surrounding whitespace. -/
def stripStr (s : String) : String := String.mk (stripChars s.toList)

/-- A float64 value as the numeric pipeline sees it: a finite value
(kept exact as a rational), one of the two infinities, or NaN. Finite
values are exact rationals rather than rounded binary floats: the
idealization keeps decimal literals exact, which none of the theorems
below exploit beyond sign, order and truncation of short literals. -/
inductive FloatVal where
  | fin (q : Rat)
  | pinf : FloatVal
  | ninf : FloatVal
  | nan : FloatVal
deriving DecidableEq, Repr

/-- Whether a float value is finite. -/
def FloatVal.isFinite : FloatVal → Bool
  | FloatVal.fin _ => true
  | _ => false

/-- Value of a list of decimal digit characters. -/
def digitsToNat (l : List Char) : Nat :=
  l.foldl (fun a c => a * 10 + (c.toNat - 48)) 0

/-- The exact rational mant / 10 ^ fracLen scaled by 10 ^ e: the value
of a decimal literal with fracLen digits after the point and exponent
e. -/
def sciRat (mant : Int) (fracLen : Nat) (e : Int) : Rat :=
  if 0 ≤ e then Rat.divInt (mant * 10 ^ e.toNat) ((10 : Int) ^ fracLen)
  else Rat.divInt mant ((10 : Int) ^ (fracLen + (-e).toNat))

/-- Parse an exponent suffix: an optional sign followed by at least one
digit. -/
def parseExp (l : List Char) : Option Int :=
  match l with
  | '-' :: ds =>
      if !ds.isEmpty && ds.all Char.isDigit then some (-(digitsToNat ds : Int)) else none
  | '+' :: ds =>
      if !ds.isEmpty && ds.all Char.isDigit then some (digitsToNat ds) else none
  | ds =>
      if !ds.isEmpty && ds.all Char.isDigit then some (digitsToNat ds) else none

/-- Parse an unsigned decimal literal — digits, an optional single
point, an optional e-exponent — into an exact rational; at least one
mantissa digit is required. The input is already lowercased. -/
def parseDecimal (l : List Char) : Option Rat :=
  let ip := l.takeWhile Char.isDigit
  match l.dropWhile Char.isDigit with
  | [] => if ip.isEmpty then none else some (Rat.divInt (digitsToNat ip) 1)
  | '.' :: r2 =>
      let fp := r2.takeWhile Char.isDigit
      if ip.isEmpty && fp.isEmpty then none
      else
        let mant : Int := (digitsToNat ip * 10 ^ fp.length + digitsToNat fp : Nat)
        match r2.dropWhile Char.isDigit with
        | [] => some (sciRat mant fp.length 0)
        | 'e' :: es => (parseExp es).map (sciRat mant fp.length)
        | _ => none
  | 'e' :: es =>
      if ip.isEmpty then none else (parseExp es).map (sciRat (digitsToNat ip) 0)
  | _ => none

/-- Lowercase a character list (for the case-insensitive inf, infinity
and nan spellings and the exponent marker). -/
def lowerChars (l : List Char) : List Char := l.map Char.toLower

/-- Parse the magnitude of a numeric string: the spellings inf,
infinity and nan, or a decimal literal. -/
def parseMag (l : List Char) : Option FloatVal :=
  if l = ['i', 'n', 'f'] || l = ['i', 'n', 'f', 'i', 'n', 'i', 't', 'y'] then
    some FloatVal.pinf
  else if l = ['n', 'a', 'n'] then some FloatVal.nan
  else (parseDecimal l).map FloatVal.fin

/-- Parse a string the way pd.to_numeric with errors coerce reads it:
surrounding whitespace is ignored, matching is case-insensitive, an
optional sign precedes the magnitude, which is a decimal literal with
optional fraction and e-exponent, or inf, infinity or nan; anything
else coerces to NaN. -/
def parseFV (s : String) : FloatVal :=
  match lowerChars (stripChars s.toList) with
  | [] => FloatVal.nan
  | '-' :: rest =>
      match parseMag rest with
      | some (FloatVal.fin q) => FloatVal.fin (-q)
      | some FloatVal.pinf => FloatVal.ninf
      | some v => v
      | none => FloatVal.nan
  | '+' :: rest =>
      match parseMag rest with
      | some v => v
      | none => FloatVal.nan
  | l =>
      match parseMag l with
      | some v => v
      | none => FloatVal.nan

/-- pd.to_numeric with errors coerce on one cell: numbers pass through,
strings are parsed (inf and nan spellings included), a missing value or
an unparsable string is NaN. -/
def toNumericF : Cell → FloatVal
  | Cell.null => FloatVal.nan
  | Cell.str s => parseFV s
  | Cell.num q => FloatVal.fin q
  | Cell.int n => FloatVal.fin (Rat.divInt n 1)

/-- to_numeric followed by fillna 0: the numeric reading of a quantity
cell. fillna replaces only NaN; the infinities pass through it. -/
def qtyNumF (c : Cell) : FloatVal :=
  match toNumericF c with
  | FloatVal.nan => FloatVal.fin 0
  | v => v

/-- The strictly-greater-than-0 test of the filter on a float value:
positive infinity passes, negative infinity fails, NaN compares
false. -/
def qtyPos : FloatVal → Bool
  | FloatVal.fin q => decide (0 < q)
  | FloatVal.pinf => true
  | FloatVal.ninf => false
  | FloatVal.nan => false

/-- Truncation toward zero of a rational, as a float-to-integer cast
truncates a finite in-range value. Int.tdiv is T-division, rounding
toward zero. -/
def ratTrunc (q : Rat) : Int := Int.tdiv q.num (q.den : Int)

/-- Reduction of an integer into int64 range by the two's-complement
wrap. -/
def wrapInt64 (n : Int) : Int := (n + 2 ^ 63) % 2 ^ 64 - 2 ^ 63

/-- astype int on one quantity value: a non-finite value (NaN or either
infinity) raises IntCastingNaNError; a finite value is truncated toward
zero and lands in int64 range. In-range truncations are cast exactly;
for out-of-range values numpy's behavior is platform-dependent (the
uint64 path wraps, the x86 float path pins to the minimum), always
producing some int64 — the wrap here is one faithful choice of that
int64, and the theorems below rely on out-of-range casts only through
the int64 bounds. -/
def intCast64 : FloatVal → Except String Int
  | FloatVal.fin q => Except.ok (wrapInt64 (ratTrunc q))
  | _ => Except.error "IntCastingNaNError"

/-- Slot key of a size column name: str.split on a single space, last
element; equivalently the suffix after the last space (the whole name
when it has no space). -/
def sizeKey (c : String) : String :=
  String.mk ((c.toList.reverse.takeWhile (fun ch => ch != ' ')).reverse)

/-- Slot key of a quantity column name: the character at index 3 (str
index 3 of the literal column name), empty for a shorter name. -/
def otsKey (c : String) : String :=
  match c.toList.drop 3 with
  | [] => ""
  | ch :: _ => String.mk [ch]

/-- One record of the first melt (unpivot of the size labels), with the
merge key already attached. -/
structure SizeRec where
  styleMajor : Cell
  color : String
  sizeColName : String
  option2Value : Cell
  key : String
deriving DecidableEq

/-- One record of the second melt (unpivot of the quantities), with the
merge key already attached. -/
structure OtsRec where
  styleMajor : Cell
  color : String
  otsColName : String
  nyShowroom : Cell
  key : String
deriving DecidableEq

/-- One record of the merged frame. -/
structure MergedRec where
  styleMajor : Cell
  color : String
  key : String
  sizeColName : String
  option2Value : Cell
  otsColName : String
  nyShowroom : Cell
deriving DecidableEq

/-- The size-slot columns actually present in the input, in slot
order. -/
def presentSizeCols (df : Table) : List String :=
  size_cols.filter (fun c => df.cols.contains c)

/-- The quantity-slot columns actually present in the input, in slot
order. -/
def presentOtsCols (df : Table) : List String :=
  ots_cols.filter (fun c => df.cols.contains c)

/-- Melt 1: unpivot the present size columns; pd.melt lists, for each
value column in order, the value of every row in row order. Color is
already normalized in df_core before the melt. -/
def meltSizes (df : Table) : List SizeRec :=
  (presentSizeCols df).flatMap (fun c =>
    df.rows.map (fun r =>
      { styleMajor := getCell r "Style major"
        color := colorNorm (getCell r "Color")
        sizeColName := c
        option2Value := getCell r c
        key := sizeKey c }))

/-- Melt 2: unpivot the present quantity columns. -/
def meltOts (df : Table) : List OtsRec :=
  (presentOtsCols df).flatMap (fun c =>
    df.rows.map (fun r =>
      { styleMajor := getCell r "Style major"
        color := colorNorm (getCell r "Color")
        otsColName := c
        nyShowroom := getCell r c
        key := otsKey c }))

/-- Combination of one size record and one quantity record into a row of
the merged frame. -/
def mkMerged (s : SizeRec) (o : OtsRec) : MergedRec :=
  { styleMajor := s.styleMajor
    color := s.color
    key := s.key
    sizeColName := s.sizeColName
    option2Value := s.option2Value
    otsColName := o.otsColName
    nyShowroom := o.nyShowroom }

/-- Inner merge on Style major, Color and Key: pandas keeps the order of
the left keys, pairing each left record with every matching right record
in right order; NaN keys match each other, as pandas merge matches
them. -/
def mergeRecs (sizes : List SizeRec) (ots : List OtsRec) : List MergedRec :=
  sizes.flatMap (fun s =>
    (ots.filter (fun o =>
        s.styleMajor == o.styleMajor && s.color == o.color && s.key == o.key)).map
      (fun o => mkMerged s o))

/-- The label half of the filter: the size label rendered by astype str
and stripped is non-empty. -/
def labelOk (c : Cell) : Bool :=
  decide (0 < (stripStr (cellAstype c)).length)

/-- The quantity half of the filter together with the label half:
quantity read as a number (NaN filled with 0) strictly positive, and
the astype-str rendering of the label non-empty after stripping. -/
def keepRec (rec : MergedRec) : Bool :=
  qtyPos (qtyNumF rec.nyShowroom) && labelOk rec.option2Value

/-- The merged records of an input table. -/
def mergedRecs (df : Table) : List MergedRec :=
  mergeRecs (meltSizes df) (meltOts df)

/-- The merged records surviving the filter. -/
def cleanedRecs (df : Table) : List MergedRec :=
  (mergedRecs df).filter keepRec

/-- The fixed output column order. -/
def out_cols : List String :=
  ["Handle", "Option1 Name", "Option1 Value", "Option2 Name",
   "Option2 Value", "Option3 Name", "Option3 Value", "New York Showroom"]

/-- One output row: renames, constant option names, the reserved third
option left missing, and the already-cast integer quantity. -/
def variantRow (rec : MergedRec) (qty : Int) : Row :=
  [("Handle", rec.styleMajor),
   ("Option1 Name", Cell.str "Color"),
   ("Option1 Value", Cell.str rec.color),
   ("Option2 Name", Cell.str "Size"),
   ("Option2 Value", rec.option2Value),
   ("Option3 Name", Cell.null),
   ("Option3 Value", Cell.null),
   ("New York Showroom", Cell.int qty)]

/-- Cast the quantity of every surviving record and build the output
rows; the first non-finite quantity aborts the whole conversion, as
astype int raises for the whole column. -/
def buildRows : List MergedRec → Except String (List Row)
  | [] => Except.ok []
  | m :: rest =>
      match intCast64 (qtyNumF m.nyShowroom), buildRows rest with
      | Except.ok n, Except.ok rows => Except.ok (variantRow m n :: rows)
      | Except.error e, _ => Except.error e
      | _, Except.error e => Except.error e

/-- The core transformation of src/app.py: melt twice, merge on the slot
key, filter, relabel with the integer cast of the quantities, and
reorder the columns; the cast raises on a non-finite quantity that
survived the filter, so the conversion is fallible. -/
def convert_to_shopify_format (df : Table) : Except String Table :=
  match buildRows (cleanedRecs df) with
  | Except.ok rows => Except.ok { cols := out_cols, rows := rows }
  | Except.error e => Except.error e

/-- The required column headers checked before the conversion runs. -/
def required_cols : List String := ["Style major", "Color", "Size 1", "ots1"]

/-- The guarded entry point: the module-level required-columns check of
src/app.py followed by convert_to_shopify_format; a missing required
column surfaces as a schema error and the pipeline does not run. -/
def transform (df : Table) : Except String Table :=
  if required_cols.all (fun c => df.cols.contains c) then
    convert_to_shopify_format df
  else
    Except.error "SchemaError"

example : sizeKey "Size 3" = "3" := by decide
example : otsKey "ots5" = "5" := by decide
example : parseFV "0.5" = FloatVal.fin (Rat.divInt 1 2) := by decide
example : parseFV " 5 " = FloatVal.fin 5 := by decide
example : parseFV "abc" = FloatVal.nan := by decide
example : parseFV "" = FloatVal.nan := by decide
example : parseFV "1e19" = FloatVal.fin 10000000000000000000 := by decide
example : parseFV "-2.5e-1" = FloatVal.fin (-(Rat.divInt 1 4)) := by decide
example : parseFV "inf" = FloatVal.pinf := by decide
example : parseFV "-Infinity" = FloatVal.ninf := by decide
example : parseFV "NaN" = FloatVal.nan := by decide
example : ratTrunc (Rat.divInt 59 10) = 5 := by decide
example : ratTrunc (Rat.divInt 1 2) = 0 := by decide
example : wrapInt64 9300000000000000000 = -9146744073709551616 := by decide
example : intCast64 (toNumericF (Cell.int 9300000000000000000))
    = Except.ok (-9146744073709551616) := rfl
example : intCast64 FloatVal.pinf = Except.error "IntCastingNaNError" := rfl

/-!
### Concrete input tables and their output rows, used as test vectors
-/

/-- The worked example of the spec: one row (ABC123, Red, S, 5, M, 0). -/
def tblExample : Table :=
  { cols := ["Style major", "Color", "Size 1", "ots1", "Size 2", "ots2"]
    rows := [[("Style major", Cell.str "ABC123"), ("Color", Cell.str "Red"),
              ("Size 1", Cell.str "S"), ("ots1", Cell.num 5),
              ("Size 2", Cell.str "M"), ("ots2", Cell.num 0)]] }

/-- The single output row of the worked example. -/
def rowExample : Row :=
  [("Handle", Cell.str "ABC123"), ("Option1 Name", Cell.str "Color"),
   ("Option1 Value", Cell.str "Red"), ("Option2 Name", Cell.str "Size"),
   ("Option2 Value", Cell.str "S"), ("Option3 Name", Cell.null),
   ("Option3 Value", Cell.null), ("New York Showroom", Cell.int 5)]

/-- The slot-1 record of the merged frame of the worked example. -/
def mExSlot1 : MergedRec :=
  { styleMajor := Cell.str "ABC123", color := "Red", key := "1",
    sizeColName := "Size 1", option2Value := Cell.str "S",
    otsColName := "ots1", nyShowroom := Cell.num 5 }

/-- An input missing the required column ots1. -/
def tblMissingReq : Table :=
  { cols := ["Style major", "Color", "Size 1"]
    rows := [[("Style major", Cell.str "A"), ("Color", Cell.str "Red"),
              ("Size 1", Cell.str "S")]] }

/-- An input whose only quantity reads as the fraction one half. -/
def tblFrac : Table :=
  { cols := ["Style major", "Color", "Size 1", "ots1"]
    rows := [[("Style major", Cell.str "A"), ("Color", Cell.str "Red"),
              ("Size 1", Cell.str "S"), ("ots1", Cell.str "0.5")]] }

/-- The output row the fractional input produces: quantity zero. -/
def rowFrac : Row :=
  [("Handle", Cell.str "A"), ("Option1 Name", Cell.str "Color"),
   ("Option1 Value", Cell.str "Red"), ("Option2 Name", Cell.str "Size"),
   ("Option2 Value", Cell.str "S"), ("Option3 Name", Cell.null),
   ("Option3 Value", Cell.null), ("New York Showroom", Cell.int 0)]

/-- An input whose size label is missing while the quantity is 5. -/
def tblNanLabel : Table :=
  { cols := ["Style major", "Color", "Size 1", "ots1"]
    rows := [[("Style major", Cell.str "A"), ("Color", Cell.str "Red"),
              ("ots1", Cell.num 5)]] }

/-- The output row the missing-label input produces: the label is still
missing in the output. -/
def rowNanLabel : Row :=
  [("Handle", Cell.str "A"), ("Option1 Name", Cell.str "Color"),
   ("Option1 Value", Cell.str "Red"), ("Option2 Name", Cell.str "Size"),
   ("Option2 Value", Cell.null), ("Option3 Name", Cell.null),
   ("Option3 Value", Cell.null), ("New York Showroom", Cell.int 5)]

/-- An input row with no Color cell at all. -/
def tblNoColor : Table :=
  { cols := ["Style major", "Color", "Size 1", "ots1"]
    rows := [[("Style major", Cell.str "A"),
              ("Size 1", Cell.str "M"), ("ots1", Cell.str "3")]] }

/-- The output row of the colorless input: the color is the empty
string, not a missing value. -/
def rowNoColor : Row :=
  [("Handle", Cell.str "A"), ("Option1 Name", Cell.str "Color"),
   ("Option1 Value", Cell.str ""), ("Option2 Name", Cell.str "Size"),
   ("Option2 Value", Cell.str "M"), ("Option3 Name", Cell.null),
   ("Option3 Value", Cell.null), ("New York Showroom", Cell.int 3)]

/-- Two distinct input rows sharing the same Style major and Color. -/
def tblDup : Table :=
  { cols := ["Style major", "Color", "Size 1", "ots1"]
    rows := [[("Style major", Cell.str "A"), ("Color", Cell.str "Red"),
              ("Size 1", Cell.str "S"), ("ots1", Cell.num 5)],
             [("Style major", Cell.str "A"), ("Color", Cell.str "Red"),
              ("Size 1", Cell.str "M"), ("ots1", Cell.num 7)]] }

/-- Output row pairing label S with quantity 5 (same source row). -/
def rowDupS5 : Row :=
  [("Handle", Cell.str "A"), ("Option1 Name", Cell.str "Color"),
   ("Option1 Value", Cell.str "Red"), ("Option2 Name", Cell.str "Size"),
   ("Option2 Value", Cell.str "S"), ("Option3 Name", Cell.null),
   ("Option3 Value", Cell.null), ("New York Showroom", Cell.int 5)]

/-- Output row pairing label S of the first input row with quantity 7 of
the second input row. -/
def rowDupS7 : Row :=
  [("Handle", Cell.str "A"), ("Option1 Name", Cell.str "Color"),
   ("Option1 Value", Cell.str "Red"), ("Option2 Name", Cell.str "Size"),
   ("Option2 Value", Cell.str "S"), ("Option3 Name", Cell.null),
   ("Option3 Value", Cell.null), ("New York Showroom", Cell.int 7)]

/-- Output row pairing label M of the second input row with quantity 5
of the first input row. -/
def rowDupM5 : Row :=
  [("Handle", Cell.str "A"), ("Option1 Name", Cell.str "Color"),
   ("Option1 Value", Cell.str "Red"), ("Option2 Name", Cell.str "Size"),
   ("Option2 Value", Cell.str "M"), ("Option3 Name", Cell.null),
   ("Option3 Value", Cell.null), ("New York Showroom", Cell.int 5)]

/-- Output row pairing label M with quantity 7 (same source row). -/
def rowDupM7 : Row :=
  [("Handle", Cell.str "A"), ("Option1 Name", Cell.str "Color"),
   ("Option1 Value", Cell.str "Red"), ("Option2 Name", Cell.str "Size"),
   ("Option2 Value", Cell.str "M"), ("Option3 Name", Cell.null),
   ("Option3 Value", Cell.null), ("New York Showroom", Cell.int 7)]

/-- An input carrying only slot columns 1 to 3, none of 4 to 8. -/
def tblSlots13 : Table :=
  { cols := ["Style major", "Color", "Size 1", "Size 2", "Size 3",
             "ots1", "ots2", "ots3"]
    rows := [[("Style major", Cell.str "A"), ("Color", Cell.str "Red"),
              ("Size 1", Cell.str "S"), ("Size 2", Cell.str "M"),
              ("Size 3", Cell.str "L"), ("ots1", Cell.num 1),
              ("ots2", Cell.num 2), ("ots3", Cell.num 3)]] }

/-- The slot-1 record of the filtered merged frame of tblSlots13. -/
def mSlot1 : MergedRec :=
  { styleMajor := Cell.str "A", color := "Red", key := "1",
    sizeColName := "Size 1", option2Value := Cell.str "S",
    otsColName := "ots1", nyShowroom := Cell.num 1 }

/-- An input with a quantity of one half and a quantity of 5.9, on two
distinct styles. -/
def tblTrunc : Table :=
  { cols := ["Style major", "Color", "Size 1", "ots1"]
    rows := [[("Style major", Cell.str "A"), ("Color", Cell.str "Red"),
              ("Size 1", Cell.str "S"), ("ots1", Cell.str "0.5")],
             [("Style major", Cell.str "B"), ("Color", Cell.str "Red"),
              ("Size 1", Cell.str "L"), ("ots1", Cell.str "5.9")]] }

/-- The merged record of tblTrunc whose quantity reads one half. -/
def mTruncHalf : MergedRec :=
  { styleMajor := Cell.str "A", color := "Red", key := "1",
    sizeColName := "Size 1", option2Value := Cell.str "S",
    otsColName := "ots1", nyShowroom := Cell.str "0.5" }

/-- Output row of tblTrunc with the half quantity truncated to 0. -/
def rowTruncHalf : Row :=
  [("Handle", Cell.str "A"), ("Option1 Name", Cell.str "Color"),
   ("Option1 Value", Cell.str "Red"), ("Option2 Name", Cell.str "Size"),
   ("Option2 Value", Cell.str "S"), ("Option3 Name", Cell.null),
   ("Option3 Value", Cell.null), ("New York Showroom", Cell.int 0)]

/-- Output row of tblTrunc with 5.9 truncated to 5, not rounded to 6. -/
def rowTruncFive : Row :=
  [("Handle", Cell.str "B"), ("Option1 Name", Cell.str "Color"),
   ("Option1 Value", Cell.str "Red"), ("Option2 Name", Cell.str "Size"),
   ("Option2 Value", Cell.str "L"), ("Option3 Name", Cell.null),
   ("Option3 Value", Cell.null), ("New York Showroom", Cell.int 5)]

/-- Whether a cell is an integer cell holding a non-negative value. -/
def cellIsNonnegInt : Cell → Bool
  | Cell.int n => decide (0 ≤ n)
  | _ => false

/-- Whether a cell is an integer cell within int64 range. -/
def cellInInt64 : Cell → Bool
  | Cell.int n => decide (-(2 ^ 63) ≤ n) && decide (n < 2 ^ 63)
  | _ => false

/-- An input with all required columns whose only quantity reads
positive infinity. -/
def tblInf : Table :=
  { cols := ["Style major", "Color", "Size 1", "ots1"]
    rows := [[("Style major", Cell.str "A"), ("Color", Cell.str "Red"),
              ("Size 1", Cell.str "S"), ("ots1", Cell.str "inf")]] }

/-- An input carrying only slot pairs 1 and 2 (slots 3 to 8 absent)
whose slot-2 quantity reads positive infinity. -/
def tblInfC6 : Table :=
  { cols := ["Style major", "Color", "Size 1", "Size 2", "ots1", "ots2"]
    rows := [[("Style major", Cell.str "A"), ("Color", Cell.str "Red"),
              ("Size 1", Cell.str "S"), ("Size 2", Cell.str "M"),
              ("ots1", Cell.num 5), ("ots2", Cell.str "inf")]] }

example : convert_to_shopify_format tblExample
    = Except.ok (Table.mk out_cols [rowExample]) := rfl
example : convert_to_shopify_format tblFrac
    = Except.ok (Table.mk out_cols [rowFrac]) := rfl
example : convert_to_shopify_format tblNanLabel
    = Except.ok (Table.mk out_cols [rowNanLabel]) := rfl
example : convert_to_shopify_format tblNoColor
    = Except.ok (Table.mk out_cols [rowNoColor]) := rfl
example : convert_to_shopify_format tblDup
    = Except.ok (Table.mk out_cols [rowDupS5, rowDupS7, rowDupM5, rowDupM7]) := rfl
example : convert_to_shopify_format tblTrunc
    = Except.ok (Table.mk out_cols [rowTruncHalf, rowTruncFive]) := rfl
example : mSlot1 ∈ cleanedRecs tblSlots13 := by decide
example : mExSlot1 ∈ mergedRecs tblExample := by decide
example : transform tblMissingReq = Except.error "SchemaError" := rfl
example : transform tblInf = Except.error "IntCastingNaNError" := rfl
example : transform tblInfC6 = Except.error "IntCastingNaNError" := rfl

/-!
### Helper lemmas about the pipeline
-/

/-- A successful transform means the guard passed and the conversion
itself returned the table. -/
theorem transform_ok_eq {df out : Table} (h : transform df = Except.ok out) :
    convert_to_shopify_format df = Except.ok out := by
  unfold transform at h
  split at h
  · exact h
  · exact absurd h (by simp)

/-- A successful conversion has the fixed column header, and rows built
from the filtered records. -/
theorem convert_ok_elim {df out : Table}
    (h : convert_to_shopify_format df = Except.ok out) :
    out.cols = out_cols ∧ buildRows (cleanedRecs df) = Except.ok out.rows := by
  unfold convert_to_shopify_format at h
  cases hb : buildRows (cleanedRecs df) with
  | ok rows =>
      rw [hb] at h
      cases Except.ok.inj h
      exact ⟨rfl, rfl⟩
  | error e => rw [hb] at h; exact absurd h (by simp)

/-- A finite float value carries a rational. -/
theorem isFinite_elim {v : FloatVal} (h : v.isFinite = true) :
    ∃ q, v = FloatVal.fin q := by
  cases v with
  | fin q => exact ⟨q, rfl⟩
  | pinf => exact absurd h (by simp [FloatVal.isFinite])
  | ninf => exact absurd h (by simp [FloatVal.isFinite])
  | nan => exact absurd h (by simp [FloatVal.isFinite])

/-- A successful integer cast comes from a finite value and is its
truncation reduced to int64 range. -/
theorem intCast64_ok_elim {v : FloatVal} {n : Int} (h : intCast64 v = Except.ok n) :
    ∃ q, v = FloatVal.fin q ∧ n = wrapInt64 (ratTrunc q) := by
  cases v with
  | fin q =>
      have h2 : Except.ok (wrapInt64 (ratTrunc q)) = Except.ok n := h
      exact ⟨q, rfl, (Except.ok.inj h2).symm⟩
  | pinf => exact absurd h (by simp [intCast64])
  | ninf => exact absurd h (by simp [intCast64])
  | nan => exact absurd h (by simp [intCast64])

/-- The positivity test on a finite value is positivity of the
rational. -/
theorem qtyPos_fin {q : Rat} (h : qtyPos (FloatVal.fin q) = true) : 0 < q := by
  simpa [qtyPos] using h

/-- Every row produced by buildRows is the variant row of one of the
records, carrying its successfully cast quantity. -/
theorem buildRows_ok_mem : ∀ {l : List MergedRec} {rows : List Row},
    buildRows l = Except.ok rows → ∀ {row : Row}, row ∈ rows →
      ∃ m ∈ l, ∃ n, intCast64 (qtyNumF m.nyShowroom) = Except.ok n ∧
        row = variantRow m n := by
  intro l
  induction l with
  | nil =>
      intro rows h row hrow
      cases Except.ok.inj h
      cases hrow
  | cons m rest ih =>
      intro rows h row hrow
      unfold buildRows at h
      cases hc : intCast64 (qtyNumF m.nyShowroom) with
      | error e => rw [hc] at h; exact absurd h (by simp)
      | ok n =>
          cases hr : buildRows rest with
          | error e => rw [hc, hr] at h; exact absurd h (by simp)
          | ok rs =>
              rw [hc, hr] at h
              have h2 : Except.ok (variantRow m n :: rs) = Except.ok rows := h
              cases Except.ok.inj h2
              rcases List.mem_cons.mp hrow with rfl | hmem
              · exact ⟨m, List.mem_cons_self m rest, n, hc, rfl⟩
              · obtain ⟨m2, hm2, n2, hc2, hrow2⟩ := ih hr hmem
                exact ⟨m2, List.mem_cons_of_mem m hm2, n2, hc2, hrow2⟩

/-- buildRows succeeds when every record's quantity reading is
finite. -/
theorem buildRows_ok_of_finite : ∀ {l : List MergedRec},
    (∀ m ∈ l, (qtyNumF m.nyShowroom).isFinite = true) →
      ∃ rows, buildRows l = Except.ok rows := by
  intro l
  induction l with
  | nil => intro _; exact ⟨[], rfl⟩
  | cons m rest ih =>
      intro hfin
      obtain ⟨rs, hrs⟩ := ih (fun m2 hm2 => hfin m2 (List.mem_cons_of_mem m hm2))
      obtain ⟨q, hq⟩ := isFinite_elim (hfin m (List.mem_cons_self m rest))
      refine ⟨variantRow m (wrapInt64 (ratTrunc q)) :: rs, ?_⟩
      unfold buildRows
      rw [hq, hrs]
      rfl

/-- Every record of the first melt carries the key computed from its own
size column name, a present size column, and the fields of some input
row. -/
theorem mem_meltSizes_elim {df : Table} {s : SizeRec} (hs : s ∈ meltSizes df) :
    s.key = sizeKey s.sizeColName ∧ s.sizeColName ∈ presentSizeCols df ∧
    ∃ r ∈ df.rows, s.styleMajor = getCell r "Style major" ∧
      s.color = colorNorm (getCell r "Color") ∧ s.option2Value = getCell r s.sizeColName := by
  simp only [meltSizes, List.mem_flatMap, List.mem_map] at hs
  obtain ⟨c, hc, r, hr, rfl⟩ := hs
  exact ⟨rfl, hc, r, hr, rfl, rfl, rfl⟩

/-- Every record of the second melt carries the key computed from its
own quantity column name, a present quantity column, and the fields of
some input row. -/
theorem mem_meltOts_elim {df : Table} {o : OtsRec} (ho : o ∈ meltOts df) :
    o.key = otsKey o.otsColName ∧ o.otsColName ∈ presentOtsCols df ∧
    ∃ r ∈ df.rows, o.styleMajor = getCell r "Style major" ∧
      o.color = colorNorm (getCell r "Color") ∧ o.nyShowroom = getCell r o.otsColName := by
  simp only [meltOts, List.mem_flatMap, List.mem_map] at ho
  obtain ⟨c, hc, r, hr, rfl⟩ := ho
  exact ⟨rfl, hc, r, hr, rfl, rfl, rfl⟩

/-- Membership in the merge: exactly the combinations of a size record
and a quantity record agreeing on Style major, Color and Key. -/
theorem mem_mergeRecs_iff {S : List SizeRec} {O : List OtsRec} {m : MergedRec} :
    m ∈ mergeRecs S O ↔ ∃ s ∈ S, ∃ o ∈ O,
      s.styleMajor = o.styleMajor ∧ s.color = o.color ∧ s.key = o.key ∧ m = mkMerged s o := by
  simp only [mergeRecs, List.mem_flatMap, List.mem_map, List.mem_filter,
    Bool.and_eq_true, beq_iff_eq]
  constructor
  · rintro ⟨s, hs, o, ⟨ho, ⟨h1, h2⟩, h3⟩, rfl⟩
    exact ⟨s, hs, o, ho, h1, h2, h3, rfl⟩
  · rintro ⟨s, hs, o, ho, h1, h2, h3, rfl⟩
    exact ⟨s, hs, o, ⟨ho, ⟨h1, h2⟩, h3⟩, rfl⟩

/-- The filter predicate, spelled out. -/
theorem keepRec_iff (m : MergedRec) :
    keepRec m = true ↔
      qtyPos (qtyNumF m.nyShowroom) = true ∧ labelOk m.option2Value = true := by
  simp [keepRec]

/-- Every row of a successful conversion is the variant row of a merged
record that survived the filter, carrying its cast quantity. -/
theorem mem_convert_rows {df out : Table}
    (hok : convert_to_shopify_format df = Except.ok out) {row : Row}
    (h : row ∈ out.rows) :
    ∃ m, m ∈ mergedRecs df ∧ keepRec m = true ∧
      ∃ n, intCast64 (qtyNumF m.nyShowroom) = Except.ok n ∧ row = variantRow m n := by
  obtain ⟨-, hb⟩ := convert_ok_elim hok
  obtain ⟨m, hm, n, hc, hrow⟩ := buildRows_ok_mem hb h
  have hm2 : m ∈ (mergedRecs df).filter keepRec := hm
  exact ⟨m, (List.mem_filter.mp hm2).1, (List.mem_filter.mp hm2).2, n, hc, hrow⟩

theorem variantRow_cols (m : MergedRec) (n : Int) :
    (variantRow m n).map Prod.fst = out_cols := rfl

theorem variantRow_handle (m : MergedRec) (n : Int) :
    getCell (variantRow m n) "Handle" = m.styleMajor := rfl

theorem variantRow_opt1name (m : MergedRec) (n : Int) :
    getCell (variantRow m n) "Option1 Name" = Cell.str "Color" := rfl

theorem variantRow_opt1value (m : MergedRec) (n : Int) :
    getCell (variantRow m n) "Option1 Value" = Cell.str m.color := rfl

theorem variantRow_opt2name (m : MergedRec) (n : Int) :
    getCell (variantRow m n) "Option2 Name" = Cell.str "Size" := rfl

theorem variantRow_opt2value (m : MergedRec) (n : Int) :
    getCell (variantRow m n) "Option2 Value" = m.option2Value := rfl

theorem variantRow_opt3name (m : MergedRec) (n : Int) :
    getCell (variantRow m n) "Option3 Name" = Cell.null := rfl

theorem variantRow_opt3value (m : MergedRec) (n : Int) :
    getCell (variantRow m n) "Option3 Value" = Cell.null := rfl

theorem variantRow_qty (m : MergedRec) (n : Int) :
    getCell (variantRow m n) "New York Showroom" = Cell.int n := rfl

/-- Truncation toward zero of a positive rational is non-negative. -/
theorem ratTrunc_nonneg {q : Rat} (h : 0 < q) : 0 ≤ ratTrunc q :=
  Int.tdiv_nonneg (le_of_lt (Rat.num_pos.mpr h)) (Int.natCast_nonneg _)

/-- A rational strictly between 0 and 1 truncates to 0. -/
theorem ratTrunc_eq_zero {q : Rat} (h0 : 0 < q) (h1 : q < 1) : ratTrunc q = 0 := by
  have hn : 0 ≤ q.num := le_of_lt (Rat.num_pos.mpr h0)
  have hd : q.num < (q.den : Int) := Rat.lt_one_iff_num_lt_denom.mp h1
  unfold ratTrunc
  exact Int.tdiv_eq_zero_of_lt hn hd

/-- The wrapped value lies in int64 range. -/
theorem wrapInt64_bounds (n : Int) : -(2 ^ 63) ≤ wrapInt64 n ∧ wrapInt64 n < 2 ^ 63 := by
  have h0 : (0 : Int) < 2 ^ 64 := by positivity
  have h1 := Int.emod_nonneg (n + 2 ^ 63) (ne_of_gt h0)
  have h2 := Int.emod_lt_of_pos (n + 2 ^ 63) h0
  have h3 : (2 : Int) ^ 64 = 2 ^ 63 + 2 ^ 63 := by norm_num
  unfold wrapInt64
  constructor <;> linarith

/-- The wrap does not move a value already in range (stated for the
non-negative half, which is all that the filter lets through). -/
theorem wrapInt64_eq_self {n : Int} (h0 : 0 ≤ n) (h1 : n < 2 ^ 63) : wrapInt64 n = n := by
  have h3 : (2 : Int) ^ 64 = 2 ^ 63 + 2 ^ 63 := by norm_num
  unfold wrapInt64
  rw [Int.emod_eq_of_lt (by linarith) (by linarith)]
  exact Int.add_sub_cancel n (2 ^ 63)

/-!
### The claims
-/

/-- C1, counterexample: on an input whose quantity reads one half, the
strictly-positive filter passes the row, yet the returned table contains
a row whose New York Showroom quantity is the integer 0 — refuting that
no row with quantity 0 appears in the output. -/
theorem C1_counterexample :
    transform tblFrac = Except.ok (Table.mk out_cols [rowFrac]) ∧
    getCell rowFrac "New York Showroom" = Cell.int 0 :=
  ⟨rfl, by decide⟩

/-- C1, amended: every output quantity is an integer cell within int64
range; each output row arises from a merged record whose numeric
quantity reading is finite and strictly positive, and whenever the
truncation toward zero of that reading lies below 2 to the 63 the
emitted integer equals it exactly — hence non-negative, and 0 for
fractional readings below one. Out-of-range readings land on some
(possibly negative) int64 value and non-finite readings abort the
conversion, so neither yields the mathematical quantity. -/
theorem C1_quantity_int64 (df out : Table) (h : transform df = Except.ok out)
    (row : Row) (hrow : row ∈ out.rows) :
    cellInInt64 (getCell row "New York Showroom") = true ∧
    ∃ m q, m ∈ mergedRecs df ∧ keepRec m = true ∧
      qtyNumF m.nyShowroom = FloatVal.fin q ∧ 0 < q ∧
      (ratTrunc q < 2 ^ 63 →
        getCell row "New York Showroom" = Cell.int (ratTrunc q) ∧
        cellIsNonnegInt (getCell row "New York Showroom") = true) := by
  obtain ⟨m, hm, hk, n, hc, rfl⟩ := mem_convert_rows (transform_ok_eq h) hrow
  obtain ⟨q, hq, rfl⟩ := intCast64_ok_elim hc
  have hpos : 0 < q := by
    have h1 := ((keepRec_iff m).mp hk).1
    rw [hq] at h1
    exact qtyPos_fin h1
  constructor
  · rw [variantRow_qty]
    have hb := wrapInt64_bounds (ratTrunc q)
    have e : (2 : Int) ^ 63 = 9223372036854775808 := by norm_num
    rw [e] at hb
    simp [cellInInt64, hb.1, hb.2]
  · refine ⟨m, q, hm, hk, hq, hpos, fun hlt => ?_⟩
    have h0 : 0 ≤ ratTrunc q := ratTrunc_nonneg hpos
    rw [variantRow_qty, wrapInt64_eq_self h0 hlt]
    exact ⟨rfl, by simp [cellIsNonnegInt, h0]⟩

/-- C1 witness: the amended statement instantiated on the fractional
test table and its single output row. -/
theorem C1_witness : cellInInt64 (getCell rowFrac "New York Showroom") = true :=
  (C1_quantity_int64 tblFrac (Table.mk out_cols [rowFrac]) rfl rowFrac (by decide)).1

/-- C2, counterexample: an input row whose Size 1 cell is missing while
ots1 is 5 is not excluded: the returned table contains its row, and that
row's Option2 Value is the missing value — refuting that rows whose size
label is missing are excluded. -/
theorem C2_counterexample :
    transform tblNanLabel = Except.ok (Table.mk out_cols [rowNanLabel]) ∧
    getCell rowNanLabel "Option2 Value" = Cell.null :=
  ⟨rfl, by decide⟩

/-- C2, amended: the label filter tests the astype-str rendering of the
label, under which a missing label renders as the non-empty string nan;
every output label is non-empty after trimming in that rendered sense,
and a label that is an actual string is non-empty after trimming — but a
missing label passes the filter and is emitted as a missing value. -/
theorem C2_label_filter (df out : Table) (h : transform df = Except.ok out)
    (row : Row) (hrow : row ∈ out.rows) :
    0 < (stripStr (cellAstype (getCell row "Option2 Value"))).length ∧
    ∀ s, getCell row "Option2 Value" = Cell.str s → 0 < (stripStr s).length := by
  obtain ⟨m, hm, hk, n, hc, rfl⟩ := mem_convert_rows (transform_ok_eq h) hrow
  have hl : 0 < (stripStr (cellAstype m.option2Value)).length := by
    have h2 := ((keepRec_iff m).mp hk).2
    simpa [labelOk] using h2
  rw [variantRow_opt2value]
  exact ⟨hl, fun s hs => by rw [hs] at hl; exact hl⟩

/-- C2 witness: the amended statement instantiated on the worked example
table and its single output row. -/
theorem C2_witness :
    0 < (stripStr (cellAstype (getCell rowExample "Option2 Value"))).length :=
  (C2_label_filter tblExample (Table.mk out_cols [rowExample]) rfl
    rowExample (by decide)).1

/-- C3, counterexample: an input that carries all four required columns
on which transform nevertheless fails — its quantity reads positive
infinity, survives the strictly-positive filter, and the integer cast
raises — refuting that transform succeeds on every input containing the
required columns. -/
theorem C3_counterexample :
    required_cols.all (fun c => tblInf.cols.contains c) = true ∧
    transform tblInf = Except.error "IntCastingNaNError" :=
  ⟨by decide, rfl⟩

/-- C3, amended: an input missing any required column yields the schema
error, independently of the rows, so no row processing happens; with all
required columns present the guard passes and the pipeline itself runs —
it returns a table (possibly with zero rows) whenever every surviving
record's quantity reading is finite, but success is not unconditional:
a non-finite reading makes the integer cast raise instead. -/
theorem C3_schema_guard (df : Table) :
    ((∃ c ∈ required_cols, c ∉ df.cols) →
      transform df = Except.error "SchemaError" ∧
      ∀ rows2, transform { cols := df.cols, rows := rows2 } = Except.error "SchemaError") ∧
    ((∀ c ∈ required_cols, c ∈ df.cols) →
      transform df = convert_to_shopify_format df ∧
      ((∀ m ∈ cleanedRecs df, (qtyNumF m.nyShowroom).isFinite = true) →
        ∃ out, transform df = Except.ok out)) := by
  constructor
  · rintro ⟨c, hc, hnot⟩
    have hnotall : ¬ (required_cols.all (fun c => df.cols.contains c) = true) := by
      rw [List.all_eq_true]
      intro hforall
      exact hnot (List.elem_iff.mp (hforall c hc))
    exact ⟨if_neg hnotall, fun rows2 => if_neg hnotall⟩
  · intro hmem
    have hall : required_cols.all (fun c => df.cols.contains c) = true :=
      List.all_eq_true.mpr (fun c hc => List.elem_iff.mpr (hmem c hc))
    refine ⟨if_pos hall, fun hfin => ?_⟩
    obtain ⟨rows, hrows⟩ := buildRows_ok_of_finite hfin
    refine ⟨{ cols := out_cols, rows := rows }, ?_⟩
    have hc2 : convert_to_shopify_format df = Except.ok { cols := out_cols, rows := rows } := by
      unfold convert_to_shopify_format
      rw [hrows]
    exact (if_pos hall).trans hc2

/-- C3 witness: the guard instantiated on a table missing ots1, on the
worked example table, and on the infinite-quantity table (whose guard
also passes). -/
theorem C3_witness :
    transform tblMissingReq = Except.error "SchemaError" ∧
    transform tblExample = convert_to_shopify_format tblExample ∧
    transform tblInf = convert_to_shopify_format tblInf :=
  ⟨((C3_schema_guard tblMissingReq).1 ⟨"ots1", by decide, by decide⟩).1,
   ((C3_schema_guard tblExample).2 (by decide)).1,
   ((C3_schema_guard tblInf).2 (by decide)).1⟩

/-- C4: a record of the merged frame never pairs the label column Size i
with the quantity column ots j for distinct i, j in 1..8: the merge
equates the keys extracted from the two column names — the trailing
token after the space on the size side, the character at index 3 on the
quantity side — and these agree exactly when i equals j. -/
theorem C4_positional_pairing (df : Table) (m : MergedRec) (hm : m ∈ mergedRecs df)
    (i j : ℕ) (hi1 : 1 ≤ i) (hi8 : i ≤ 8) (hj1 : 1 ≤ j) (hj8 : j ≤ 8)
    (hsz : m.sizeColName = "Size " ++ toString i)
    (hots : m.otsColName = "ots" ++ toString j) : i = j := by
  unfold mergedRecs at hm
  obtain ⟨s, hs, o, ho, -, -, hkey, rfl⟩ := mem_mergeRecs_iff.mp hm
  have h1 := (mem_meltSizes_elim hs).1
  have h2 := (mem_meltOts_elim ho).1
  replace hsz : s.sizeColName = "Size " ++ toString i := hsz
  replace hots : o.otsColName = "ots" ++ toString j := hots
  have hk : sizeKey ("Size " ++ toString i) = otsKey ("ots" ++ toString j) := by
    rw [← hsz, ← hots, ← h1, ← h2, hkey]
  interval_cases i <;> interval_cases j <;> revert hk <;> decide

/-- C4 witness: the pairing invariant instantiated on the worked example
table, its slot-1 merged record and the slot indices 1 and 1. -/
theorem C4_witness :
    mExSlot1 ∈ mergedRecs tblExample ∧
    mExSlot1.sizeColName = "Size " ++ toString 1 ∧
    mExSlot1.otsColName = "ots" ++ toString 1 ∧ (1 : ℕ) = 1 :=
  ⟨by decide, by decide, by decide,
    C4_positional_pairing tblExample mExSlot1 (by decide) 1 1 (by decide) (by decide)
      (by decide) (by decide) (by decide) (by decide)⟩

/-- C5: the transformation is a pure function of its input table: equal
inputs give equal guarded results and equal converted results, so two
calls on the same input are identical. -/
theorem C5_deterministic (df1 df2 : Table) (h : df1 = df2) :
    transform df1 = transform df2 ∧
    convert_to_shopify_format df1 = convert_to_shopify_format df2 := by
  rw [h]; exact ⟨rfl, rfl⟩

/-- C5 witness: determinism instantiated on the worked example table. -/
theorem C5_witness :
    transform tblExample = transform tblExample ∧
    convert_to_shopify_format tblExample = convert_to_shopify_format tblExample :=
  C5_deterministic tblExample tblExample rfl

/-- C6, counterexample: an input with the required columns and only slot
pairs 1 and 2 present on which transform nevertheless errors — the
slot-2 quantity reads positive infinity and the integer cast raises —
refuting that transform succeeds on every such input. -/
theorem C6_counterexample :
    required_cols.all (fun c => tblInfC6.cols.contains c) = true ∧
    tblInfC6.cols.contains "Size 5" = false ∧
    tblInfC6.cols.contains "ots5" = false ∧
    transform tblInfC6 = Except.error "IntCastingNaNError" :=
  ⟨by decide, by decide, by decide, rfl⟩

/-- C6, amended: absent slot pairs are tolerated by the column
selection: with the required columns present the guard passes and the
pipeline runs whatever subset of the eight slot pairs is present, every
surviving record draws both of its slot columns from columns present in
the input (absent slots contribute nothing), and the conversion returns
a table whenever every surviving quantity reading is finite — a failure
can come only from the quantity cast, never from the absent slots. -/
theorem C6_missing_slot_tolerance (df : Table)
    (hreq : ∀ c ∈ required_cols, c ∈ df.cols) :
    transform df = convert_to_shopify_format df ∧
    (∀ m ∈ cleanedRecs df,
      m.sizeColName ∈ df.cols ∧ m.otsColName ∈ df.cols ∧
      m.sizeColName ∈ size_cols ∧ m.otsColName ∈ ots_cols) ∧
    ((∀ m ∈ cleanedRecs df, (qtyNumF m.nyShowroom).isFinite = true) →
      ∃ out, transform df = Except.ok out) := by
  have hall : required_cols.all (fun c => df.cols.contains c) = true :=
    List.all_eq_true.mpr (fun c hc => List.elem_iff.mpr (hreq c hc))
  refine ⟨if_pos hall, ?_, ?_⟩
  · intro m hm
    have hm2 : m ∈ mergedRecs df := List.mem_of_mem_filter hm
    unfold mergedRecs at hm2
    obtain ⟨s, hs, o, ho, -, -, -, rfl⟩ := mem_mergeRecs_iff.mp hm2
    have h1 := (mem_meltSizes_elim hs).2.1
    have h2 := (mem_meltOts_elim ho).2.1
    simp only [presentSizeCols, List.mem_filter] at h1
    simp only [presentOtsCols, List.mem_filter] at h2
    exact ⟨List.elem_iff.mp h1.2, List.elem_iff.mp h2.2, h1.1, h2.1⟩
  · intro hfin
    obtain ⟨rows, hrows⟩ := buildRows_ok_of_finite hfin
    refine ⟨{ cols := out_cols, rows := rows }, ?_⟩
    have hc2 : convert_to_shopify_format df = Except.ok { cols := out_cols, rows := rows } := by
      unfold convert_to_shopify_format
      rw [hrows]
    exact (if_pos hall).trans hc2

/-- C6 witness: tolerance instantiated on the input carrying only slots
1 to 3, and on the slot-1 record of its filtered merged frame. -/
theorem C6_witness :
    transform tblSlots13 = convert_to_shopify_format tblSlots13 ∧
    (mSlot1.sizeColName ∈ tblSlots13.cols ∧ mSlot1.otsColName ∈ tblSlots13.cols ∧
     mSlot1.sizeColName ∈ size_cols ∧ mSlot1.otsColName ∈ ots_cols) := by
  have h := C6_missing_slot_tolerance tblSlots13 (by decide)
  exact ⟨h.1, h.2.1 mSlot1 (by decide)⟩

/-- C7: a successful transform returns exactly the fixed output columns
in the fixed order, in the table header and in every row; Option1 Name
is the constant Color, Option2 Name the constant Size, both Option3
fields are missing, and the Handle of every row is the Style major value
of some input row. -/
theorem C7_output_schema (df out : Table) (h : transform df = Except.ok out) :
    out.cols = out_cols ∧
    ∀ row ∈ out.rows,
      row.map Prod.fst = out_cols ∧
      getCell row "Option1 Name" = Cell.str "Color" ∧
      getCell row "Option2 Name" = Cell.str "Size" ∧
      getCell row "Option3 Name" = Cell.null ∧
      getCell row "Option3 Value" = Cell.null ∧
      ∃ src ∈ df.rows, getCell row "Handle" = getCell src "Style major" := by
  have hconv := transform_ok_eq h
  refine ⟨(convert_ok_elim hconv).1, ?_⟩
  intro row hrow
  obtain ⟨m, hm, hk, n, hc, rfl⟩ := mem_convert_rows hconv hrow
  unfold mergedRecs at hm
  obtain ⟨s, hs, o, ho, -, -, -, rfl⟩ := mem_mergeRecs_iff.mp hm
  obtain ⟨-, -, r, hr, hsm, -, -⟩ := mem_meltSizes_elim hs
  exact ⟨rfl, rfl, rfl, rfl, rfl, r, hr, by rw [variantRow_handle]; exact hsm⟩

/-- C7 witness: the schema statement instantiated on the worked example
table. -/
theorem C7_witness : (Table.mk out_cols [rowExample]).cols = out_cols :=
  (C7_output_schema tblExample (Table.mk out_cols [rowExample]) rfl).1

/-- C8: every output row takes its Option1 Value from the normalized
color of some input row, where normalization maps a missing color to the
empty string; in particular when every input row lacks its Color value,
every output row carries the empty string as a string cell, not a
missing marker. -/
theorem C8_color_default (df out : Table) (h : transform df = Except.ok out)
    (row : Row) (hrow : row ∈ out.rows) :
    (∃ src ∈ df.rows,
      getCell row "Option1 Value" = Cell.str (colorNorm (getCell src "Color"))) ∧
    ((∀ r ∈ df.rows, getCell r "Color" = Cell.null) →
      getCell row "Option1 Value" = Cell.str "") ∧
    colorNorm Cell.null = "" := by
  obtain ⟨m, hm, hk, n, hc, rfl⟩ := mem_convert_rows (transform_ok_eq h) hrow
  unfold mergedRecs at hm
  obtain ⟨s, hs, o, ho, -, -, -, rfl⟩ := mem_mergeRecs_iff.mp hm
  obtain ⟨-, -, r, hr, -, hcol, -⟩ := mem_meltSizes_elim hs
  refine ⟨⟨r, hr, ?_⟩, ?_, rfl⟩
  · rw [variantRow_opt1value]
    show Cell.str s.color = _
    rw [hcol]
  · intro hall
    rw [variantRow_opt1value]
    show Cell.str s.color = _
    rw [hcol, hall r hr]
    rfl

/-- C8 witness: the default-color statement instantiated on the input
whose row has no Color cell, discharging the all-rows-missing
hypothesis there. -/
theorem C8_witness : getCell rowNoColor "Option1 Value" = Cell.str "" :=
  (C8_color_default tblNoColor (Table.mk out_cols [rowNoColor]) rfl
    rowNoColor (by decide)).2.1 (by decide)

/-- C9: the merge joins solely on the composite key of Style major,
Color and slot key — a merged record is exactly a size record and a
quantity record agreeing on that key, with nothing tying the two to the
same input row; on a table whose two rows share Style major and Color,
the output is the per-slot cross product of four rows, pairing each
label with each quantity across rows. -/
theorem C9_join_cross_product :
    (∀ (df : Table) (m : MergedRec), m ∈ mergedRecs df ↔
      ∃ s ∈ meltSizes df, ∃ o ∈ meltOts df,
        s.styleMajor = o.styleMajor ∧ s.color = o.color ∧ s.key = o.key ∧
          m = mkMerged s o) ∧
    tblDup.rows.length = 2 ∧
    transform tblDup
      = Except.ok (Table.mk out_cols [rowDupS5, rowDupS7, rowDupM5, rowDupM7]) :=
  ⟨fun df m => by unfold mergedRecs; exact mem_mergeRecs_iff, by decide, rfl⟩

/-- C10: output quantities are produced by numeric conversion followed
by truncation toward zero: every merged record whose quantity reading is
a finite value strictly between 0 and 1 passes the strictly-positive
test of the filter yet has its quantity cast to the integer 0; and
concretely the string 0.5 parses to one half and is emitted as 0 while
5.9 is emitted as 5 — truncation, not rounding. -/
theorem C10_truncation_to_int :
    (∀ (df : Table) (m : MergedRec), m ∈ mergedRecs df →
      ∀ q : Rat, qtyNumF m.nyShowroom = FloatVal.fin q → 0 < q → q < 1 →
        qtyPos (qtyNumF m.nyShowroom) = true ∧
        (labelOk m.option2Value = true → keepRec m = true) ∧
        intCast64 (qtyNumF m.nyShowroom) = Except.ok 0) ∧
    toNumericF (Cell.str "0.5") = FloatVal.fin (Rat.divInt 1 2) ∧
    toNumericF (Cell.str "5.9") = FloatVal.fin (Rat.divInt 59 10) ∧
    ratTrunc (Rat.divInt 59 10) = 5 ∧
    transform tblTrunc
      = Except.ok (Table.mk out_cols [rowTruncHalf, rowTruncFive]) ∧
    getCell rowTruncHalf "New York Showroom" = Cell.int 0 ∧
    getCell rowTruncFive "New York Showroom" = Cell.int 5 := by
  refine ⟨?_, by decide, by decide, by decide, rfl, by decide, by decide⟩
  intro df m hm q hq h0 h1
  refine ⟨?_, ?_, ?_⟩
  · rw [hq]
    simpa [qtyPos] using h0
  · intro hl
    rw [keepRec_iff]
    refine ⟨?_, hl⟩
    rw [hq]
    simpa [qtyPos] using h0
  · rw [hq]
    show Except.ok (wrapInt64 (ratTrunc q)) = Except.ok 0
    rw [ratTrunc_eq_zero h0 h1]
    rfl

/-- C10 witness: the universal part instantiated on the record of the
tblTrunc merge whose quantity string is 0.5, discharging the label
condition there. -/
theorem C10_witness :
    qtyPos (qtyNumF mTruncHalf.nyShowroom) = true ∧
    keepRec mTruncHalf = true ∧
    intCast64 (qtyNumF mTruncHalf.nyShowroom) = Except.ok 0 := by
  have h := C10_truncation_to_int.1 tblTrunc mTruncHalf (by decide) (Rat.divInt 1 2)
    (by decide) (by decide) (by decide)
  exact ⟨h.1, h.2.1 (by decide), h.2.2⟩
